import Mathlib

/-
  Verification of the navigation-guard, token-refresh and state-annotation
  logic of the angular-setup module (src/index.js), via a shallow embedding
  of the relevant functions: `check` (token-change detection inside
  `AngularSetup.prototype.auth`), `onStateChange`, and `authenticateState`.
-/

namespace AngularSetup

/-- A JavaScript primitive value as used for claim `type` / `value` fields:
the fragment needed to model the loose equality `==` the source uses at
src/index.js line 269 (`claim.type == c.type && claim.value == c.value`). -/
inductive JsVal where
  | str (s : String)
  | num (n : Int)
  deriving DecidableEq, Repr

/-- JavaScript loose equality `==` on the string/number fragment: equal-type
operands compare by value; a number and a string compare by converting the
string to a number (integer strings only in this fragment). -/
def looseEq : JsVal → JsVal → Bool
  | .str s, .str t => s == t
  | .num a, .num b => a == b
  | .num a, .str t => t.toInt? == some a
  | .str t, .num a => t.toInt? == some a

/-- A claim held by a token: a `(type, value)` pair
(elements of `token.claims` in src/index.js). -/
structure Claim where
  type : JsVal
  value : JsVal
  deriving DecidableEq, Repr

/-- A token record. In the source a token is a plain object; `expires_at`
and `claims` may each be absent (JS `undefined`), modelled with `Option`.
The empty object `{}` is `⟨none, none⟩`. -/
structure Token where
  expires_at : Option Int
  claims : Option (List Claim)
  deriving DecidableEq, Repr

/-- A claim requirement declared in a navigation state's `data.claims`:
a required `(type, value)` pair plus optional `redirect` / `state`
fallbacks (src/index.js lines 263-295). -/
structure ClaimRequirement where
  type : JsVal
  value : JsVal
  redirect : Option String
  state : Option String
  deriving DecidableEq, Repr

/-- The `data` record of a navigation state; only `authenticate`, `claims`
and `title` are meaningful to the core (src/index.js lines 234-260). -/
structure StateData where
  authenticate : Bool
  claims : Option (List ClaimRequirement)
  title : Option String
  deriving DecidableEq, Repr

/-- A navigation state: dotted `name`, `url`, and optional `data` record
(`toState.data || {}` at src/index.js line 243). -/
structure NavState where
  name : String
  url : String
  data : Option StateData
  deriving DecidableEq, Repr

/-- The `data` record used when `toState.data` is absent:
`toState.data || {}` yields an object whose fields are all undefined,
so `authenticate` is falsy. -/
def defaultData : StateData := ⟨false, none, none⟩

/-- JS truthiness of an optional string field: absent (`undefined`) and the
empty string are falsy, every other string is truthy. -/
def truthy : Option String → Bool
  | some s => !(s == "")
  | none => false

/-- Errors `authenticateState` can raise while evaluating a navigation:
a TypeError from `token.claims.forEach` when `token.claims` is undefined
(src/index.js line 267), a TypeError from `self.$state.go` where `self`
is not bound to the router in any enclosing scope (src/index.js line 291),
and the explicit `throw new Error(...)` for a claim requirement with
neither `redirect` nor `state` (src/index.js line 295). -/
inductive GuardError where
  | claimsUndefined
  | selfStateUndefined
  | missingFallback
  deriving DecidableEq, Repr

/-- The observable outcome of one run of the guard: whether
`event.preventDefault()` was called, the sequence of assignments to
`window.location`, the sequence of successfully invoked `$state.go`
targets, and the error that aborted evaluation, if any. -/
structure GuardResult where
  prevented : Bool
  locations : List String
  stateGos : List String
  error : Option GuardError
  deriving DecidableEq, Repr

/-- The result of a guard run that performed no effect. -/
def emptyResult : GuardResult := ⟨false, [], [], none⟩

/-- The inner `token.claims.forEach` search of src/index.js lines 267-272:
does the token's claim list contain an entry whose `(type, value)` matches
the requirement under loose equality? The source's `found` flag stops
matching after the first hit, which coincides with `List.any`. -/
def tokenHasClaim (tcs : List Claim) (req : ClaimRequirement) : Bool :=
  tcs.any (fun c => looseEq req.type c.type && looseEq req.value c.value)

/-- The outer `claims.forEach` loop of src/index.js lines 263-296, with the
`claimFailed` accumulator flag. Each iteration first checks the flag and
returns immediately when it is set (line 265). Otherwise it searches
`token.claims` (a TypeError if that field is undefined), and on a miss sets
the flag and takes the requirement's fallback: a truthy `redirect` assigns
`window.location` after `preventDefault` and the loop continues; a truthy
`state` calls `preventDefault` and then faults evaluating `self.$state`
(`self` is unbound, so no `$state.go` call happens); neither fallback
throws, aborting the whole loop. -/
def processClaims (tok : Token) : List ClaimRequirement → Bool → GuardResult → GuardResult
  | [], _, r => r
  | req :: rest, claimFailed, r =>
    if claimFailed then processClaims tok rest claimFailed r
    else
      match tok.claims with
      | none => { r with error := some .claimsUndefined }
      | some tcs =>
        if tokenHasClaim tcs req then
          processClaims tok rest false r
        else
          if truthy req.redirect then
            processClaims tok rest true
              { r with prevented := true,
                       locations := r.locations ++ [req.redirect.getD ""] }
          else if truthy req.state then
            { r with prevented := true, error := some .selfStateUndefined }
          else
            { r with error := some .missingFallback }

/-- The navigation guard `authenticateState(token, toState, event)` of
src/index.js lines 242-302, as a function from the current token and the
target state to the observable `GuardResult`. -/
def authenticateState (token : Option Token) (toState : NavState) : GuardResult :=
  let data := toState.data.getD defaultData
  if !data.authenticate then
    emptyResult
  else
    match token with
    | none => ⟨true, ["/login?redirect=" ++ toState.url], [], none⟩
    | some tok =>
      let claims := data.claims.getD []
      processClaims tok claims false emptyResult

/-- The mutable fields `onStateChange` writes: `document.title` and
`$rootScope.stateName` (initially undefined, hence `Option`). -/
structure Scope where
  docTitle : String
  stateName : Option String
  deriving DecidableEq, Repr

/-- `toState.name` with every `.` replaced by `-`
(`(toState.name || '').replace(/\./g, '-')`, src/index.js line 237). -/
def normalizeName (s : String) : String :=
  ⟨s.data.map (fun c => if c = '.' then '-' else c)⟩

/-- The state annotator `onStateChange(name, toState, $rootScope)` of
src/index.js lines 230-238: a no-op for an empty state name; otherwise it
sets `document.title` when `toState.data && toState.data.title` is truthy,
and always sets the normalized state name. -/
def onStateChange (toState : NavState) (sc : Scope) : Scope :=
  if toState.name == "" then sc
  else
    let sc1 :=
      match toState.data with
      | some d =>
        match d.title with
        | some t => if t == "" then sc else { sc with docTitle := t }
        | none => sc
      | none => sc
    { sc1 with stateName := some (normalizeName toState.name) }

/-- The token-change detection `check()` of src/index.js lines 64-81, as a
function from the candidate token (`getToken()`) and the stored token
(`$rootScope.token`) to the new stored token. Both-absent is a no-op;
otherwise absent operands are normalized to the empty object `{}` and the
store is updated exactly when the `expires_at` markers differ. -/
def check (candidate : Option Token) (stored : Option Token) : Option Token :=
  if candidate.isNone && stored.isNone then stored
  else
    let t := candidate.getD ⟨none, none⟩
    let o := stored.getD ⟨none, none⟩
    if t.expires_at == o.expires_at then stored
    else some t

/-! ## Helper lemmas about the claims loop -/

/-- Once the `claimFailed` flag is set, every remaining iteration of the
claims loop returns immediately: the result is unchanged. -/
lemma processClaims_skip (tok : Token) (reqs : List ClaimRequirement) (r : GuardResult) :
    processClaims tok reqs true r = r := by
  induction reqs with
  | nil => rfl
  | cons q rest ih => simp [processClaims, ih]

/-- A prefix of requirements that are all satisfied by the token's claims
contributes nothing: the loop passes over it unchanged. -/
lemma processClaims_met_front (tok : Token) (tcs : List Claim)
    (htc : tok.claims = some tcs) (pre l : List ClaimRequirement) (r : GuardResult)
    (hpre : ∀ q ∈ pre, tokenHasClaim tcs q = true) :
    processClaims tok (pre ++ l) false r = processClaims tok l false r := by
  induction pre with
  | nil => rfl
  | cons q pre ih =>
    have hq : tokenHasClaim tcs q = true := hpre q (List.mem_cons_self q pre)
    simp only [List.cons_append, processClaims, htc, hq, if_true, if_false, Bool.false_eq_true]
    exact ih (fun p hp => hpre p (List.mem_cons_of_mem q hp))

/-- The claims loop performs at most one redirect effect beyond those
already in the accumulator: after the first miss the flag suppresses all
later effects, and the error branches abort without adding any. -/
lemma processClaims_le (tok : Token) (reqs : List ClaimRequirement) (b : Bool)
    (r : GuardResult) :
    (processClaims tok reqs b r).locations.length +
      (processClaims tok reqs b r).stateGos.length ≤
      r.locations.length + r.stateGos.length + 1 := by
  induction reqs generalizing b r with
  | nil => simp [processClaims]
  | cons q rest ih =>
    cases b with
    | true => rw [processClaims_skip]; omega
    | false =>
      show (processClaims tok (q :: rest) false r).locations.length +
        (processClaims tok (q :: rest) false r).stateGos.length ≤ _
      simp only [processClaims]
      cases htc : tok.claims with
      | none => simp
      | some tcs =>
        simp only
        by_cases hfound : tokenHasClaim tcs q = true
        · simpa [hfound] using ih false r
        · simp only [Bool.not_eq_true] at hfound
          simp only [hfound, Bool.false_eq_true, if_false]
          by_cases hred : truthy q.redirect = true
          · simp only [hred, if_true, processClaims_skip]
            simp; omega
          · simp only [Bool.not_eq_true] at hred
            simp only [hred, Bool.false_eq_true, if_false]
            by_cases hst : truthy q.state = true
            · simp [hst]
            · simp only [Bool.not_eq_true] at hst
              simp [hst]

/-! ## Claim theorems -/

/-- Claim C3: for every navigation to a state with `authenticate` true and
no current token, the guard cancels the event and sets the browser
location to `/login?redirect=<url>` where `<url>` is the target state's
`url` field, performing no other effect and raising no error. -/
theorem guard_no_token_login_redirect (st : NavState) (d : StateData)
    (hd : st.data = some d) (ha : d.authenticate = true) :
    authenticateState none st = ⟨true, ["/login?redirect=" ++ st.url], [], none⟩ := by
  simp [authenticateState, hd, ha]

/-- Witness for C3: the spec's scenario — no token, `authenticate` true,
target url `/secret`. -/
theorem guard_no_token_login_redirect_witness :
    authenticateState none ⟨"secret", "/secret", some ⟨true, none, none⟩⟩ =
      ⟨true, ["/login?redirect=" ++ "/secret"], [], none⟩ :=
  guard_no_token_login_redirect ⟨"secret", "/secret", some ⟨true, none, none⟩⟩
    ⟨true, none, none⟩ rfl rfl

/-- Claim C4: for every navigation to a state whose `authenticate` flag is
falsy (including an absent `data` record, for which the guard substitutes
the empty record), the guard performs no effect and raises no error,
whatever the token and the state's claims list are: the event is not
canceled, no redirect happens and the claims are never evaluated. -/
theorem guard_unauthenticated_noop (token : Option Token) (st : NavState)
    (h : (st.data.getD defaultData).authenticate = false) :
    authenticateState token st = emptyResult := by
  simp [authenticateState, h]

/-- Witness for C4: a state with no `data` record, navigated to with a
token present whose claims field is even absent — still a no-op. -/
theorem guard_unauthenticated_noop_witness :
    authenticateState (some ⟨some 5, none⟩) ⟨"home", "/home", none⟩ = emptyResult :=
  guard_unauthenticated_noop (some ⟨some 5, none⟩) ⟨"home", "/home", none⟩ rfl

/-- Claim C6 (evaluation at the failing input): with a token present and an
unmet claim requirement whose fallback is `state := "denied"`, the guard
cancels the event and then aborts with a TypeError evaluating
`self.$state` (src/index.js line 291: `self` is not bound to the router in
any enclosing scope), so no router navigation to `denied` is ever
invoked. -/
theorem guard_state_fallback_crash :
    authenticateState (some ⟨some 100, some []⟩)
        ⟨"s", "/s", some ⟨true, some [⟨.str "role", .str "admin", none, some "denied"⟩], none⟩⟩ =
      ⟨true, [], [], some .selfStateUndefined⟩ := by
  decide

/-- Claim C10: if the current token is present but has no `claims`
collection — such as the empty record `check()` stores when normalizing an
absent candidate — then any navigation to a state with `authenticate` true
and a non-empty claims requirement list aborts with a TypeError from
`token.claims.forEach` (src/index.js line 267), with no allow, no
redirect, no cancellation and no configuration error. -/
theorem guard_missing_claims_typeerror (tok : Token) (st : NavState) (d : StateData)
    (q : ClaimRequirement) (rest : List ClaimRequirement)
    (hd : st.data = some d) (ha : d.authenticate = true)
    (htok : tok.claims = none) (hc : d.claims = some (q :: rest)) :
    authenticateState (some tok) st = ⟨false, [], [], some .claimsUndefined⟩ := by
  simp [authenticateState, hd, ha, hc, processClaims, htok, emptyResult]

/-- Witness for C10: the empty token record `⟨none, none⟩` (what `check()`
stores for an absent candidate) against a state requiring one claim. -/
theorem guard_missing_claims_typeerror_witness :
    authenticateState (some ⟨none, none⟩)
        ⟨"s", "/s", some ⟨true, some [⟨.str "role", .str "admin", some "/denied", none⟩], none⟩⟩ =
      ⟨false, [], [], some .claimsUndefined⟩ :=
  guard_missing_claims_typeerror ⟨none, none⟩
    ⟨"s", "/s", some ⟨true, some [⟨.str "role", .str "admin", some "/denied", none⟩], none⟩⟩
    ⟨true, some [⟨.str "role", .str "admin", some "/denied", none⟩], none⟩
    ⟨.str "role", .str "admin", some "/denied", none⟩ [] rfl rfl rfl rfl

/-- Counterexample to claim C1: two claim requirements, both unmet by the
token (its claim list is empty), both carrying a `redirect` fallback. The
claim predicts the second failing requirement also fires its redirect
`/b`; the code skips it (`if (claimFailed) return;`, src/index.js line
265), so the result holds only the first redirect `/a` and `/b` never
appears. -/
theorem claims_loop_second_failure_no_effect_cx :
    tokenHasClaim [] ⟨.str "x", .str "y", some "/b", none⟩ = false ∧
    authenticateState (some ⟨some 100, some []⟩)
        ⟨"s", "/s", some ⟨true, some [⟨.str "role", .str "admin", some "/a", none⟩,
          ⟨.str "x", .str "y", some "/b", none⟩], none⟩⟩ =
      ⟨true, ["/a"], [], none⟩ ∧
    "/b" ∉ (authenticateState (some ⟨some 100, some []⟩)
        ⟨"s", "/s", some ⟨true, some [⟨.str "role", .str "admin", some "/a", none⟩,
          ⟨.str "x", .str "y", some "/b", none⟩], none⟩⟩).locations := by
  refine ⟨by decide, by decide, by decide⟩

/-- Claim C1 as amended: once one claim requirement is found failing, every
later requirement is skipped outright — it is neither matched against the
token's claims nor able to trigger any redirect or state-navigation side
effect. First conjunct: with the `claimFailed` flag set, the loop changes
nothing. Second conjunct: the first failing requirement (here with a
truthy `redirect`) contributes exactly its own redirect, and the entire
rest of the list contributes nothing. -/
theorem claims_loop_first_failure_wins :
    (∀ (tok : Token) (reqs : List ClaimRequirement) (r : GuardResult),
      processClaims tok reqs true r = r) ∧
    (∀ (tok : Token) (tcs : List Claim) (req : ClaimRequirement)
      (rest : List ClaimRequirement) (r : GuardResult),
      tok.claims = some tcs → tokenHasClaim tcs req = false →
      truthy req.redirect = true →
      processClaims tok (req :: rest) false r =
        ⟨true, r.locations ++ [req.redirect.getD ""], r.stateGos, r.error⟩) := by
  constructor
  · exact processClaims_skip
  · intro tok tcs req rest r htc hreq hred
    simp [processClaims, htc, hreq, hred, processClaims_skip]

/-- Witness for C1's amended theorem: an unmet requirement redirecting to
`/a` followed by another unmet requirement redirecting to `/b`; only `/a`
is performed, and the flag-set loop over the rest is the identity. -/
theorem claims_loop_first_failure_wins_witness :
    processClaims ⟨some 100, some []⟩ [⟨.str "x", .str "y", some "/b", none⟩] true
        ⟨true, ["/a"], [], none⟩ = ⟨true, ["/a"], [], none⟩ ∧
    processClaims ⟨some 100, some []⟩ [⟨.str "role", .str "admin", some "/a", none⟩,
        ⟨.str "x", .str "y", some "/b", none⟩] false emptyResult =
      ⟨true, [] ++ [(some "/a").getD ""], [], none⟩ :=
  ⟨claims_loop_first_failure_wins.1 ⟨some 100, some []⟩
      [⟨.str "x", .str "y", some "/b", none⟩] ⟨true, ["/a"], [], none⟩,
    claims_loop_first_failure_wins.2 ⟨some 100, some []⟩ []
      ⟨.str "role", .str "admin", some "/a", none⟩
      [⟨.str "x", .str "y", some "/b", none⟩] emptyResult rfl (by decide) (by decide)⟩

/-- Claim C2: for every navigation to a state with `authenticate` true and
a token present, at most one redirect mechanism fires during the guard
run: the number of browser-location assignments plus the number of router
state navigations is at most one, so a canceled event is never redirected
by more than one mechanism. -/
theorem guard_at_most_one_redirect (tok : Token) (st : NavState) (d : StateData)
    (hd : st.data = some d) (ha : d.authenticate = true) :
    (authenticateState (some tok) st).locations.length +
      (authenticateState (some tok) st).stateGos.length ≤ 1 := by
  simp only [authenticateState, hd, Option.getD_some, ha, Bool.not_true,
    Bool.false_eq_true, if_false]
  simpa [emptyResult] using processClaims_le tok (d.claims.getD []) false emptyResult

/-- Witness for C2: two unmet redirect-bearing requirements still produce a
single browser redirect and no state navigation. -/
theorem guard_at_most_one_redirect_witness :
    (authenticateState (some ⟨some 100, some []⟩)
        ⟨"s", "/s", some ⟨true, some [⟨.str "role", .str "admin", some "/a", none⟩,
          ⟨.str "x", .str "y", some "/b", none⟩], none⟩⟩).locations.length +
    (authenticateState (some ⟨some 100, some []⟩)
        ⟨"s", "/s", some ⟨true, some [⟨.str "role", .str "admin", some "/a", none⟩,
          ⟨.str "x", .str "y", some "/b", none⟩], none⟩⟩).stateGos.length ≤ 1 :=
  guard_at_most_one_redirect ⟨some 100, some []⟩
    ⟨"s", "/s", some ⟨true, some [⟨.str "role", .str "admin", some "/a", none⟩,
      ⟨.str "x", .str "y", some "/b", none⟩], none⟩⟩
    ⟨true, some [⟨.str "role", .str "admin", some "/a", none⟩,
      ⟨.str "x", .str "y", some "/b", none⟩], none⟩ rfl rfl

/-- Claim C5: when the first unmet claim requirement (all requirements
before it are satisfied, so it is actually reached and evaluated) declares
neither a truthy `redirect` nor a truthy `state`, the guard raises the
configuration error at that point, aborting evaluation immediately: no
effect is performed, no later requirement is looked at, and the error
propagates to the caller uncaught. -/
theorem guard_missing_fallback_error (tok : Token) (tcs : List Claim)
    (st : NavState) (d : StateData) (pre : List ClaimRequirement)
    (req : ClaimRequirement) (rest : List ClaimRequirement)
    (hd : st.data = some d) (ha : d.authenticate = true)
    (hc : d.claims = some (pre ++ req :: rest))
    (htc : tok.claims = some tcs)
    (hpre : ∀ q ∈ pre, tokenHasClaim tcs q = true)
    (hreq : tokenHasClaim tcs req = false)
    (hr : truthy req.redirect = false) (hs : truthy req.state = false) :
    authenticateState (some tok) st = ⟨false, [], [], some .missingFallback⟩ := by
  simp only [authenticateState, hd, Option.getD_some, ha, Bool.not_true,
    Bool.false_eq_true, if_false, hc]
  rw [processClaims_met_front tok tcs htc pre (req :: rest) emptyResult hpre]
  simp [processClaims, htc, hreq, hr, hs, emptyResult]

/-- Witness for C5: the token holds the `role=admin` claim; the first
requirement is met, the second (`plan=pro`) is unmet and declares no
fallback, so the guard aborts with the configuration error. -/
theorem guard_missing_fallback_error_witness :
    authenticateState (some ⟨some 100, some [⟨.str "role", .str "admin"⟩]⟩)
        ⟨"s", "/s", some ⟨true, some [⟨.str "role", .str "admin", none, none⟩,
          ⟨.str "plan", .str "pro", none, none⟩], none⟩⟩ =
      ⟨false, [], [], some .missingFallback⟩ :=
  guard_missing_fallback_error ⟨some 100, some [⟨.str "role", .str "admin"⟩]⟩
    [⟨.str "role", .str "admin"⟩]
    ⟨"s", "/s", some ⟨true, some [⟨.str "role", .str "admin", none, none⟩,
      ⟨.str "plan", .str "pro", none, none⟩], none⟩⟩
    ⟨true, some [⟨.str "role", .str "admin", none, none⟩,
      ⟨.str "plan", .str "pro", none, none⟩], none⟩
    [⟨.str "role", .str "admin", none, none⟩] ⟨.str "plan", .str "pro", none, none⟩ []
    rfl rfl rfl rfl (by decide) (by decide) rfl rfl

/-- Claim C8: for every navigation to a state with `authenticate` true and
a token present whose claim collection satisfies every requirement of the
state (membership under the loose equality used by the source, independent
of order), the guard performs no effect at all: the event is not canceled,
the location is untouched, no state navigation happens and no error is
raised. -/
theorem guard_all_claims_met_noop (tok : Token) (tcs : List Claim)
    (st : NavState) (d : StateData)
    (hd : st.data = some d) (ha : d.authenticate = true)
    (htc : tok.claims = some tcs)
    (hall : ∀ q ∈ d.claims.getD [], tokenHasClaim tcs q = true) :
    authenticateState (some tok) st = emptyResult := by
  simp only [authenticateState, hd, Option.getD_some, ha, Bool.not_true,
    Bool.false_eq_true, if_false]
  have h := processClaims_met_front tok tcs htc (d.claims.getD []) [] emptyResult hall
  rw [List.append_nil] at h
  rw [h]
  rfl

/-- Witness for C8: the spec's scenario — token
`{expires_at: 100, claims: [{type: "role", value: "admin"}]}` against a
state requiring exactly that claim: navigation proceeds unmodified. -/
theorem guard_all_claims_met_noop_witness :
    authenticateState (some ⟨some 100, some [⟨.str "role", .str "admin"⟩]⟩)
        ⟨"s", "/s", some ⟨true, some [⟨.str "role", .str "admin", none, none⟩], none⟩⟩ =
      emptyResult :=
  guard_all_claims_met_noop ⟨some 100, some [⟨.str "role", .str "admin"⟩]⟩
    [⟨.str "role", .str "admin"⟩]
    ⟨"s", "/s", some ⟨true, some [⟨.str "role", .str "admin", none, none⟩], none⟩⟩
    ⟨true, some [⟨.str "role", .str "admin", none, none⟩], none⟩
    rfl rfl rfl (by decide)

/-- Claim C7: `check()` leaves the stored token unchanged when both the
candidate and the stored token are absent, and when both are present with
equal `expires_at`; when both are present with differing `expires_at` it
stores the candidate; when the stored token is absent and the candidate
carries an expiry marker it stores the candidate; when the candidate is
absent and the stored token carries an expiry marker it stores the empty
record `⟨none, none⟩` (the normalization of the absent candidate). -/
theorem check_change_detection :
    (check none none = none) ∧
    (∀ t o : Token, t.expires_at = o.expires_at → check (some t) (some o) = some o) ∧
    (∀ t o : Token, t.expires_at ≠ o.expires_at → check (some t) (some o) = some t) ∧
    (∀ (t : Token) (e : Int), t.expires_at = some e → check (some t) none = some t) ∧
    (∀ (o : Token) (e : Int), o.expires_at = some e →
      check none (some o) = some ⟨none, none⟩) := by
  refine ⟨rfl, ?_, ?_, ?_, ?_⟩
  · intro t o h; simp [check, h]
  · intro t o h; simp [check, h]
  · intro t e h; simp [check, h]
  · intro o e h; simp [check, h]

/-- Witness for C7: a concrete instance of each case with a hypothesis —
equal expiries keep the store, differing expiries replace it, a fresh
candidate over an empty store is stored, and an absent candidate over a
present store is normalized to the empty record. -/
theorem check_change_detection_witness :
    (check (some ⟨some 100, none⟩) (some ⟨some 100, some [⟨.str "role", .str "admin"⟩]⟩) =
      some ⟨some 100, some [⟨.str "role", .str "admin"⟩]⟩) ∧
    (check (some ⟨some 200, none⟩) (some ⟨some 100, none⟩) = some ⟨some 200, none⟩) ∧
    (check (some ⟨some 100, some []⟩) none = some ⟨some 100, some []⟩) ∧
    (check none (some ⟨some 100, none⟩) = some ⟨none, none⟩) :=
  ⟨check_change_detection.2.1 ⟨some 100, none⟩
      ⟨some 100, some [⟨.str "role", .str "admin"⟩]⟩ rfl,
    check_change_detection.2.2.1 ⟨some 200, none⟩ ⟨some 100, none⟩ (by decide),
    check_change_detection.2.2.2.1 ⟨some 100, some []⟩ 100 rfl,
    check_change_detection.2.2.2.2 ⟨some 100, none⟩ 100 rfl⟩

/-- Counterexample to claim C9: the target state's `data.title` field is
present (it holds the empty string), yet the document title is not set to
it — the source's truthiness test `toState.data && toState.data.title`
(src/index.js line 234) rejects the empty string, so the prior title
`"orig"` survives, which differs from the present field value `""`. -/
theorem onStateChange_empty_title_cx :
    onStateChange ⟨"a", "/a", some ⟨false, none, some ""⟩⟩ ⟨"orig", none⟩ =
      ⟨"orig", some "a"⟩ ∧ ("orig" : String) ≠ "" :=
  ⟨by decide, by decide⟩

/-- Claim C9 as amended: for a target state with an empty name the
annotator changes nothing; for a non-empty name it always sets the
normalized state-name field to the name with every `.` replaced by `-`,
and it sets the document title to `data.title` exactly when that field is
present and truthy (non-empty) — a present-but-empty title leaves the
document title unchanged. -/
theorem onStateChange_spec :
    (∀ (st : NavState) (sc : Scope), st.name = "" → onStateChange st sc = sc) ∧
    (∀ (st : NavState) (sc : Scope), st.name ≠ "" →
      (st.data.getD defaultData).title.getD "" ≠ "" →
      onStateChange st sc =
        ⟨(st.data.getD defaultData).title.getD "", some (normalizeName st.name)⟩) ∧
    (∀ (st : NavState) (sc : Scope), st.name ≠ "" →
      (st.data.getD defaultData).title.getD "" = "" →
      onStateChange st sc = ⟨sc.docTitle, some (normalizeName st.name)⟩) := by
  refine ⟨?_, ?_, ?_⟩
  · intro st sc h
    simp [onStateChange, h]
  · intro st sc hn ht
    obtain ⟨nm, url, dt⟩ := st
    cases dt with
    | none => simp [defaultData] at ht
    | some d =>
      cases hti : d.title with
      | none => simp [hti] at ht
      | some t =>
        simp only [Option.getD_some, hti] at ht
        simp [onStateChange, hn, hti, ht]
  · intro st sc hn ht
    obtain ⟨nm, url, dt⟩ := st
    simp only at hn
    cases dt with
    | none => simp [onStateChange, hn]
    | some d =>
      cases hti : d.title with
      | none => simp [onStateChange, hn, hti]
      | some t =>
        simp only [Option.getD_some, hti] at ht
        simp [onStateChange, hn, hti, ht]

/-- Witness for C9's amended theorem: an empty-name state changes nothing;
a state named `a.b` with title `Hello` sets both fields (dots become
dashes); a state named `a` with no `data` record keeps the old title but
still sets the state name. -/
theorem onStateChange_spec_witness :
    (onStateChange ⟨"", "/", none⟩ ⟨"orig", none⟩ = ⟨"orig", none⟩) ∧
    (onStateChange ⟨"a.b", "/ab", some ⟨false, none, some "Hello"⟩⟩ ⟨"orig", none⟩ =
      ⟨((some (⟨false, none, some "Hello"⟩ : StateData)).getD defaultData).title.getD "",
        some (normalizeName "a.b")⟩) ∧
    (onStateChange ⟨"a", "/a", none⟩ ⟨"orig", none⟩ =
      ⟨(⟨"orig", none⟩ : Scope).docTitle, some (normalizeName "a")⟩) :=
  ⟨onStateChange_spec.1 ⟨"", "/", none⟩ ⟨"orig", none⟩ rfl,
    onStateChange_spec.2.1 ⟨"a.b", "/ab", some ⟨false, none, some "Hello"⟩⟩
      ⟨"orig", none⟩ (by decide) (by decide),
    onStateChange_spec.2.2 ⟨"a", "/a", none⟩ ⟨"orig", none⟩ (by decide) (by decide)⟩

end AngularSetup
